import Mathlib

/-!
Shallow embedding of `src/schedule.py` (a Streamlit production-scheduler
dashboard).  The in-memory pandas DataFrame `st.session_state.df` is
modelled as a `List OrderRecord` (the list position is the DataFrame's
RangeIndex label, which the code uses as the calendar event id).  The
pending calendar changes `st.session_state.pending_calendar_changes` are
modelled as a `List PendingChange`.  Dates are modelled at date-only
precision (every date the program constructs is a midnight timestamp:
`pd.to_datetime` of a `YYYY-MM-DD` cell, `pd.Timestamp` of a date or of a
FullCalendar `start` string), matching how `to_csv` and `strftime` render
them.
-/

set_option autoImplicit false

namespace Scheduler

/-- A calendar date at date-only precision: year, month, day. -/
structure Date where
  y : Nat
  m : Nat
  d : Nat
deriving Repr, DecidableEq

/-- Gregorian leap-year rule. -/
def isLeap (y : Nat) : Bool :=
  (y % 4 == 0 && y % 100 != 0) || y % 400 == 0

/-- Number of days in a month of a given year. -/
def daysInMonth (y m : Nat) : Nat :=
  if m = 2 then (if isLeap y then 29 else 28)
  else if m = 4 ∨ m = 6 ∨ m = 9 ∨ m = 11 then 30
  else 31

/-- A `Date` that denotes a real calendar day (and is 4-digit formattable,
as every date handled by the program is). -/
def ValidDate (dt : Date) : Prop :=
  dt.y < 10000 ∧ 1 ≤ dt.m ∧ dt.m ≤ 12 ∧ 1 ≤ dt.d ∧ dt.d ≤ daysInMonth dt.y dt.m

instance (dt : Date) : Decidable (ValidDate dt) := by
  unfold ValidDate; infer_instance

/-- An optional date cell whose date, when present, is valid. -/
def ValidOptDate : Option Date → Prop
  | none => True
  | some dt => ValidDate dt

instance (od : Option Date) : Decidable (ValidOptDate od) := by
  unfold ValidOptDate
  cases od <;> infer_instance

/-- The decimal digit character for `n ≤ 9` (codepoint 48 is `0`). -/
def digitChar (n : Nat) : Char :=
  Char.ofNat (48 + n)

/-- Value of a decimal digit character, `none` on anything else. -/
def digitVal (c : Char) : Option Nat :=
  if 48 ≤ c.toNat ∧ c.toNat ≤ 57 then some (c.toNat - 48) else none

/-- Four-digit zero-padded decimal rendering (the `%Y` field). -/
def pad4 (n : Nat) : List Char :=
  [digitChar (n / 1000 % 10), digitChar (n / 100 % 10), digitChar (n / 10 % 10), digitChar (n % 10)]

/-- Two-digit zero-padded decimal rendering (the `%m` / `%d` fields). -/
def pad2 (n : Nat) : List Char :=
  [digitChar (n / 10 % 10), digitChar (n % 10)]

/-- Models `Timestamp.strftime('%Y-%m-%d')`. -/
def formatDate (dt : Date) : String :=
  String.mk (pad4 dt.y ++ '-' :: (pad2 dt.m ++ '-' :: pad2 dt.d))

/-- Models `pd.to_datetime(cell, errors='coerce')` restricted to the
`YYYY-MM-DD` cell shape the program itself writes: a well-formed
`YYYY-MM-DD` string parses to its date, anything else (including the
empty cell a `NaT` is saved as) coerces to `NaT`, i.e. `none`.  (pandas
also accepts other textual date layouts and rejects out-of-`ns`-range
years; neither case is ever produced by the program's own serializer.) -/
def parseDate (s : String) : Option Date :=
  match s.data with
  | [c1, c2, c3, c4, e1, c5, c6, e2, c7, c8] =>
    if e1 = '-' ∧ e2 = '-' then
      match digitVal c1, digitVal c2, digitVal c3, digitVal c4,
            digitVal c5, digitVal c6, digitVal c7, digitVal c8 with
      | some v1, some v2, some v3, some v4, some v5, some v6, some v7, some v8 =>
        let y := ((v1 * 10 + v2) * 10 + v3) * 10 + v4
        let mo := v5 * 10 + v6
        let dd := v7 * 10 + v8
        if 1 ≤ mo ∧ mo ≤ 12 ∧ 1 ≤ dd ∧ dd ≤ daysInMonth y mo then
          some ⟨y, mo, dd⟩
        else none
      | _, _, _, _, _, _, _, _ => none
    else none
  | _ => none

/-- `STATUS_COLORS` dict of `schedule.py`. -/
def STATUS_COLORS : List (String × String) :=
  [("Completed", "#28a745"),
   ("In Progress", "#007bff"),
   ("Scheduled", "#ffc107"),
   ("Placeholder", "#fd7e14"),
   ("Unscheduled", "#6c757d")]

/-- Models `df['Status'].map(STATUS_COLORS).fillna(STATUS_COLORS['Unscheduled'])`
applied to one status cell: dictionary lookup with the `Unscheduled` grey as
the fallback for unmapped statuses. -/
def statusColor (s : String) : String :=
  (List.lookup s STATUS_COLORS).getD ((List.lookup "Unscheduled" STATUS_COLORS).getD "")

/-- One row of the in-memory DataFrame after `load_data` (the order book
store).  Field order follows the CSV column order, with the computed
`Color` and the `Type` column the loader appends. -/
structure OrderRecord where
  wo : String
  quote : String
  poNumber : String
  status : String
  customerName : String
  modelDescription : String
  scheduledDate : Option Date
  actualDeliveryDate : Option Date
  price : String
  color : String
  rtype : String
deriving Repr, DecidableEq

/-- One raw tabular row as produced by the CSV reader, all cells as text
(an empty string is an empty cell).  The model assumes the standard header
(all columns of the order book present), which is the shape the program's
own exporter writes. -/
structure Row where
  wo : String
  quote : String
  poNumber : String
  status : String
  customerName : String
  modelDescription : String
  scheduledDate : String
  actualDeliveryDate : String
  price : String
  rtype : String
deriving Repr, DecidableEq

/-- `load_data` on one row: parse the two date columns leniently and
compute the `Color` column from `Status`. -/
def loadRow (row : Row) : OrderRecord :=
  { wo := row.wo
    quote := row.quote
    poNumber := row.poNumber
    status := row.status
    customerName := row.customerName
    modelDescription := row.modelDescription
    scheduledDate := parseDate row.scheduledDate
    actualDeliveryDate := parseDate row.actualDeliveryDate
    price := row.price
    color := statusColor row.status
    rtype := row.rtype }

/-- Models `load_data`: per-row date parsing and color derivation over the
whole table. -/
def loadData (rows : List Row) : List OrderRecord :=
  rows.map loadRow

/-- A FullCalendar event object as built by `df_to_calendar_events`
(`extendedProps` fields inlined with an `ep` prefix). -/
structure CalendarEvent where
  title : String
  start : String
  id : String
  backgroundColor : String
  borderColor : String
  epWo : String
  epCustomer : String
  epModel : String
  epPrice : String
  epStatus : String
deriving Repr, DecidableEq

/-- The event built for the row at positional index `idx` whose
`Scheduled Date` is `dt`: truncated title lines, `YYYY-MM-DD` start,
the index as the event id, the row's color on both color fields. -/
def mkEvent (idx : Nat) (r : OrderRecord) (dt : Date) : CalendarEvent :=
  let wo := r.wo
  let customer := if r.customerName.length > 30 then r.customerName.take 27 ++ "..." else r.customerName
  let model := if r.modelDescription.length > 40 then r.modelDescription.take 37 ++ "..." else r.modelDescription
  { title := wo ++ "\n" ++ customer ++ "\n" ++ model
    start := formatDate dt
    id := toString idx
    backgroundColor := r.color
    borderColor := r.color
    epWo := wo
    epCustomer := customer
    epModel := r.modelDescription
    epPrice := r.price
    epStatus := r.status }

/-- The `for idx, row in df.iterrows()` loop of `df_to_calendar_events`,
carrying the positional index: rows with `NaT` scheduled date are
skipped, every other row yields one event. -/
def eventsFrom : Nat → List OrderRecord → List CalendarEvent
  | _, [] => []
  | idx, r :: rest =>
    match r.scheduledDate with
    | none => eventsFrom (idx + 1) rest
    | some dt => mkEvent idx r dt :: eventsFrom (idx + 1) rest

/-- Models `df_to_calendar_events`. -/
def dfToCalendarEvents (df : List OrderRecord) : List CalendarEvent :=
  eventsFrom 0 df

/-- One entry of `st.session_state.pending_calendar_changes`: the event id
(the DataFrame index label), the dropped-to date, and the `WO` looked up
for display. -/
structure PendingChange where
  eventId : Nat
  newDate : Date
  wo : String
deriving Repr, DecidableEq

/-- The `WO` cell of the row at index `i` (`df.loc[i, 'WO']`; the ids the
calendar reports always index existing rows). -/
def woAt (df : List OrderRecord) (i : Nat) : String :=
  ((df.get? i).map OrderRecord.wo).getD ""

/-- The `eventDrop` handler: build the change record and either replace
the existing pending change with the same event id (the
`next(... if c['event_id'] == event_id ...)` scan) or append a new one. -/
def stageDrop (df : List OrderRecord) (pending : List PendingChange)
    (eventId : Nat) (newDate : Date) : List PendingChange :=
  let changeInfo : PendingChange := { eventId := eventId, newDate := newDate, wo := woAt df eventId }
  match pending.findIdx? (fun c => c.eventId == eventId) with
  | some i => pending.set i changeInfo
  | none => pending ++ [changeInfo]

/-- The session state the claims are about: the store and the pending
calendar changes. -/
structure AppState where
  df : List OrderRecord
  pending : List PendingChange
deriving Repr, DecidableEq

/-- A calendar drag/drop interaction updates only the pending set. -/
def handleEventDrop (s : AppState) (eventId : Nat) (newDate : Date) : AppState :=
  { s with pending := stageDrop s.df s.pending eventId newDate }

/-- One step of the confirm loop:
`df.loc[change['event_id'], 'Scheduled Date'] = change['new_date']`
(event ids always index existing rows; an absent index is modelled as a
no-op). -/
def applyChange (df : List OrderRecord) (c : PendingChange) : List OrderRecord :=
  match df.get? c.eventId with
  | some r => df.set c.eventId { r with scheduledDate := some c.newDate }
  | none => df

/-- Apply all pending changes in order. -/
def applyPending (df : List OrderRecord) (pending : List PendingChange) : List OrderRecord :=
  pending.foldl applyChange df

/-- The `Update Schedule` button (`key="update_calendar"`): apply every
pending change to the store, then clear the pending set. -/
def confirmCalendar (s : AppState) : AppState :=
  { df := applyPending s.df s.pending, pending := [] }

/-- The `Cancel Changes` button (`key="cancel_calendar"`): clear the
pending set, leaving the store untouched. -/
def cancelCalendar (s : AppState) : AppState :=
  { s with pending := [] }

/-- The `new_row` dict built by the `add_placeholder` form:
`WO = 'PLACEHOLDER-' + str(len(df) + 1)`, status `Placeholder`, the
chosen date, the `Placeholder` dict color, and `Type = 'Placeholder'`. -/
def placeholderRecord (df : List OrderRecord) (placeholderName : String) (placeholderDate : Date) :
    OrderRecord :=
  { wo := "PLACEHOLDER-" ++ toString (df.length + 1)
    quote := ""
    poNumber := ""
    status := "Placeholder"
    customerName := placeholderName
    modelDescription := "Placeholder"
    scheduledDate := some placeholderDate
    actualDeliveryDate := none
    price := ""
    color := (List.lookup "Placeholder" STATUS_COLORS).getD ""
    rtype := "Placeholder" }

/-- The `add_placeholder` form submit: `pd.concat` of the store and the
one new row. -/
def addPlaceholder (df : List OrderRecord) (placeholderName : String) (placeholderDate : Date) :
    List OrderRecord :=
  df ++ [placeholderRecord df placeholderName placeholderDate]

/-- A `NaT`-aware date cell on output: `to_csv` writes `NaT` as the empty
cell and a midnight timestamp as `YYYY-MM-DD`. -/
def dateCell : Option Date → String
  | none => ""
  | some dt => formatDate dt

/-- `save_data` on one row (`df.drop(columns=['Color'])` then `to_csv`):
all columns except the computed `Color`. -/
def exportRow (r : OrderRecord) : Row :=
  { wo := r.wo
    quote := r.quote
    poNumber := r.poNumber
    status := r.status
    customerName := r.customerName
    modelDescription := r.modelDescription
    scheduledDate := dateCell r.scheduledDate
    actualDeliveryDate := dateCell r.actualDeliveryDate
    price := r.price
    rtype := r.rtype }

/-- Models the `save_data` serialization (the save-to-file path): the
store as raw rows, `Color` dropped. -/
def exportRows (df : List OrderRecord) : List Row :=
  df.map exportRow

/-- Header row written by `save_data` (`Color` dropped). -/
def saveHeader : List String :=
  ["WO", "Quote", "PO Number", "Status", "Customer Name", "Model Description",
   "Scheduled Date", "Actual Delivery Date", "Price", "Type"]

/-- Data cells written by `save_data` for one record. -/
def saveRowCells (r : OrderRecord) : List String :=
  [r.wo, r.quote, r.poNumber, r.status, r.customerName, r.modelDescription,
   dateCell r.scheduledDate, dateCell r.actualDeliveryDate, r.price, r.rtype]

/-- The CSV table written by `save_data`: header plus one row per record,
without the `Color` column. -/
def saveCsv (df : List OrderRecord) : List (List String) :=
  saveHeader :: df.map saveRowCells

/-- Header row of the `Download Updated CSV` button, which serializes
`st.session_state.df.to_csv(index=False)` directly — every column,
`Color` included. -/
def downloadHeader : List String :=
  ["WO", "Quote", "PO Number", "Status", "Customer Name", "Model Description",
   "Scheduled Date", "Actual Delivery Date", "Price", "Color", "Type"]

/-- Data cells of the download path for one record (`Color` included). -/
def downloadRowCells (r : OrderRecord) : List String :=
  [r.wo, r.quote, r.poNumber, r.status, r.customerName, r.modelDescription,
   dateCell r.scheduledDate, dateCell r.actualDeliveryDate, r.price, r.color, r.rtype]

/-- The CSV table of the `Download Updated CSV` button. -/
def downloadCsv (df : List OrderRecord) : List (List String) :=
  downloadHeader :: df.map downloadRowCells

/-- One edited row of the `st.data_editor` view: the nine editable
columns (`Color` and `Type` are not shown in the editor). -/
structure EditedRow where
  wo : String
  quote : String
  poNumber : String
  status : String
  customerName : String
  modelDescription : String
  scheduledDate : Option Date
  actualDeliveryDate : Option Date
  price : String
deriving Repr, DecidableEq

/-- Overwrite the editable columns of a stored record with an edited row
(the record keeps its `Color` and `Type` until the color recompute). -/
def applyEdit (r : OrderRecord) (e : EditedRow) : OrderRecord :=
  { r with
    wo := e.wo
    quote := e.quote
    poNumber := e.poNumber
    status := e.status
    customerName := e.customerName
    modelDescription := e.modelDescription
    scheduledDate := e.scheduledDate
    actualDeliveryDate := e.actualDeliveryDate
    price := e.price }

/-- Write the edited rows back at the filtered positions
(`df.loc[filtered_df.index, col] = edited_df[col].values` column loop,
expressed row-wise). -/
def writeEdits (df : List OrderRecord) (pairs : List (Nat × EditedRow)) : List OrderRecord :=
  pairs.foldl
    (fun acc p =>
      match acc.get? p.1 with
      | some r => acc.set p.1 (applyEdit r p.2)
      | none => acc)
    df

/-- The table `Update Schedule` button (`key="update_table"`): assigning
`edited_df[col].values` at `filtered_df.index` requires equal lengths —
pandas raises `ValueError` when the edited view has a different row count
(e.g. the user added a row) — then the `Color` column is recomputed from
`Status`. -/
def updateTable (df : List OrderRecord) (filteredIdx : List Nat) (edited : List EditedRow) :
    Except String (List OrderRecord) :=
  if edited.length = filteredIdx.length then
    Except.ok ((writeEdits df (filteredIdx.zip edited)).map
      (fun r => { r with color := statusColor r.status }))
  else
    Except.error "Must have equal len keys and value when setting with an iterable"

/-- The `WO` column of the store. -/
def woList (df : List OrderRecord) : List String :=
  df.map OrderRecord.wo

/-- No two records share a `workOrderId`. -/
def uniqueWo (df : List OrderRecord) : Prop :=
  (woList df).Nodup

instance (df : List OrderRecord) : Decidable (uniqueWo df) := by
  unfold uniqueWo
  exact List.nodupDecidable _

/-- The `(workOrderId, scheduledDate, status)` view of the store used by
the round-trip property. -/
def storeTuples (df : List OrderRecord) : List (String × Option Date × String) :=
  df.map (fun r => (r.wo, r.scheduledDate, r.status))

/-- The one-row order book of the drag/confirm/cancel scenarios:
id `A1`, status `Scheduled`, scheduled date `2024-03-01`. -/
def rowA1 : Row :=
  { wo := "A1"
    quote := ""
    poNumber := ""
    status := "Scheduled"
    customerName := "Acme"
    modelDescription := "Widget"
    scheduledDate := "2024-03-01"
    actualDeliveryDate := ""
    price := "100"
    rtype := "Job" }

/-- A second row that shares the `WO` of `rowA1` but sits on another day
(work-order ids are not deduplicated anywhere in the code). -/
def rowA1b : Row :=
  { rowA1 with customerName := "Bolt", scheduledDate := "2024-03-02" }

/-- A loaded row whose id happens to have the synthetic placeholder
shape that `add_placeholder` will generate next. -/
def rowP2 : Row :=
  { rowA1 with wo := "PLACEHOLDER-2" }

/-- Two-row store whose rows share the work-order id `A1` (nothing in the
code prevents this). -/
def dfDupWo : List OrderRecord :=
  loadData [rowA1, rowA1b]

/-- The pending set after dragging event `0` to `2024-03-05` and then
event `1` to `2024-03-06` — two staged changes to the same work-order id
`A1`. -/
def pendingDup : List PendingChange :=
  stageDrop dfDupWo (stageDrop dfDupWo [] 0 ⟨2024, 3, 5⟩) 1 ⟨2024, 3, 6⟩

/-- The table-editor image of the loaded `A1` row. -/
def editedA1 : EditedRow :=
  { wo := "A1"
    quote := ""
    poNumber := ""
    status := "Scheduled"
    customerName := "Acme"
    modelDescription := "Widget"
    scheduledDate := some ⟨2024, 3, 1⟩
    actualDeliveryDate := none
    price := "100" }

/-- A row the user adds in the table editor, id field left blank. -/
def editedNew : EditedRow :=
  { editedA1 with wo := "", customerName := "New Customer", scheduledDate := some ⟨2024, 3, 9⟩ }

/-! ### Helper lemmas -/

theorem daysInMonth_le (y m : Nat) : daysInMonth y m ≤ 31 := by
  unfold daysInMonth
  split
  · split <;> omega
  · split <;> omega

theorem digitVal_digitChar (k : Nat) (h : k < 10) : digitVal (digitChar k) = some k := by
  interval_cases k <;> decide

/-- Inverse property of the date serializer: a valid date printed as
`YYYY-MM-DD` parses back to itself. -/
theorem parseDate_formatDate (dt : Date) (h : ValidDate dt) : parseDate (formatDate dt) = some dt := by
  obtain ⟨y, m, d⟩ := dt
  obtain ⟨hy, hm1, hm2, hd1, hd2⟩ := h
  simp only at hy hm1 hm2 hd1 hd2
  have hd31 : d ≤ 31 := le_trans hd2 (daysInMonth_le y m)
  show parseDate (String.mk (pad4 y ++ '-' :: (pad2 m ++ '-' :: pad2 d))) = some ⟨y, m, d⟩
  rw [parseDate]
  simp only [pad4, pad2, List.cons_append, List.nil_append]
  rw [digitVal_digitChar _ (by omega), digitVal_digitChar _ (by omega),
      digitVal_digitChar _ (by omega), digitVal_digitChar _ (by omega),
      digitVal_digitChar _ (by omega), digitVal_digitChar _ (by omega),
      digitVal_digitChar _ (by omega), digitVal_digitChar _ (by omega)]
  have ey : ((y / 1000 % 10 * 10 + y / 100 % 10) * 10 + y / 10 % 10) * 10 + y % 10 = y := by omega
  have em : m / 10 % 10 * 10 + m % 10 = m := by omega
  have ed : d / 10 % 10 * 10 + d % 10 = d := by omega
  simp only [ey, em, ed]
  have hcond : 1 ≤ m ∧ m ≤ 12 ∧ 1 ≤ d ∧ d ≤ daysInMonth y m := ⟨hm1, hm2, hd1, hd2⟩
  rw [if_pos hcond]
  simp

/-- A successful association-list lookup returns one of the stored
values. -/
theorem lookup_mem_snd : ∀ {l : List (String × String)} {k v : String},
    List.lookup k l = some v → v ∈ l.map Prod.snd := by
  intro l
  induction l with
  | nil => intro k v h; simp [List.lookup] at h
  | cons p t ih =>
    intro k v h
    obtain ⟨a, b⟩ := p
    rw [List.lookup] at h
    cases hk : (k == a) with
    | true => rw [hk] at h; simp at h; simp [h]
    | false =>
      rw [hk] at h
      simp at h
      rw [List.map_cons]
      exact List.mem_cons_of_mem _ (ih h)

theorem eventsFrom_length (df : List OrderRecord) : ∀ idx : Nat,
    (eventsFrom idx df).length = (df.filter (fun r => r.scheduledDate.isSome)).length := by
  induction df with
  | nil => intro idx; rfl
  | cons r rest ih =>
    intro idx
    cases hs : r.scheduledDate with
    | none => simp [eventsFrom, hs, List.filter, ih]
    | some dt => simp [eventsFrom, hs, List.filter, ih]

theorem eventsFrom_mem (df : List OrderRecord) : ∀ (idx : Nat) (e : CalendarEvent),
    e ∈ eventsFrom idx df →
    ∃ (j : Nat) (r : OrderRecord), df.get? j = some r ∧ r.scheduledDate.isSome = true ∧
      e.id = toString (idx + j) := by
  induction df with
  | nil => intro idx e he; simp [eventsFrom] at he
  | cons r rest ih =>
    intro idx e he
    cases hs : r.scheduledDate with
    | none =>
      rw [eventsFrom, hs] at he
      obtain ⟨j, r', hg, hsome, hid⟩ := ih (idx + 1) e he
      exact ⟨j + 1, r', by simpa using hg, hsome, by rw [hid]; congr 1; omega⟩
    | some dt =>
      rw [eventsFrom, hs] at he
      rcases List.mem_cons.mp he with hhead | htail
      · refine ⟨0, r, rfl, by simp [hs], ?_⟩
        rw [hhead]
        rfl
      · obtain ⟨j, r', hg, hsome, hid⟩ := ih (idx + 1) e htail
        exact ⟨j + 1, r', by simpa using hg, hsome, by rw [hid]; congr 1; omega⟩

/-- Appending one scheduled row to the store appends its event after the
existing events. -/
theorem eventsFrom_append_some (r : OrderRecord) (dt : Date) (hr : r.scheduledDate = some dt)
    (df : List OrderRecord) : ∀ idx : Nat,
    eventsFrom idx (df ++ [r]) = eventsFrom idx df ++ [mkEvent (idx + df.length) r dt] := by
  induction df with
  | nil =>
    intro idx
    simp [eventsFrom, hr]
  | cons q rest ih =>
    intro idx
    cases hq : q.scheduledDate with
    | none =>
      simp only [List.cons_append, eventsFrom, hq, List.append_eq]
      rw [ih (idx + 1)]
      congr 3
      simp
      omega
    | some dtq =>
      simp only [List.cons_append, eventsFrom, hq, List.append_eq]
      rw [ih (idx + 1)]
      congr 4
      simp
      omega

/-- Staging a drop for an event id no pending change mentions appends
the change. -/
theorem stageDrop_append (df : List OrderRecord) (p : List PendingChange) (e : Nat) (dt : Date)
    (hp : ∀ c ∈ p, c.eventId ≠ e) :
    stageDrop df p e dt = p ++ [⟨e, dt, woAt df e⟩] := by
  have hnone : p.findIdx? (fun c => c.eventId == e) = none := by
    rw [List.findIdx?_eq_none_iff]
    intro c hc
    simpa using hp c hc
  rw [stageDrop, hnone]

/-- Setting the just-appended element replaces it. -/
theorem set_append_length {α : Type} (l : List α) (c c' : α) :
    (l ++ [c]).set l.length c' = l ++ [c'] := by
  induction l with
  | nil => rfl
  | cons a t ih => simp [List.set_cons_succ, ih]

/-- Re-staging a drop for an event id whose pending change is the last
entry replaces that entry. -/
theorem stageDrop_replace (df : List OrderRecord) (p : List PendingChange) (e : Nat)
    (c : PendingChange) (dt : Date) (hp : ∀ x ∈ p, x.eventId ≠ e) (hc : c.eventId = e) :
    stageDrop df (p ++ [c]) e dt = p ++ [⟨e, dt, woAt df e⟩] := by
  have hnone : p.findIdx? (fun x => x.eventId == e) = none := by
    rw [List.findIdx?_eq_none_iff]
    intro x hx
    simpa using hp x hx
  have hfind : (p ++ [c]).findIdx? (fun x => x.eventId == e) = some p.length := by
    rw [List.findIdx?_append, hnone]
    simp [List.findIdx?, hc]
  rw [stageDrop, hfind]
  show (p ++ [c]).set p.length { eventId := e, newDate := dt, wo := woAt df e }
      = p ++ [{ eventId := e, newDate := dt, wo := woAt df e }]
  exact set_append_length p c _

/-- `applyChange` preserves the number of rows. -/
theorem applyChange_length (df : List OrderRecord) (c : PendingChange) :
    (applyChange df c).length = df.length := by
  rw [applyChange]
  cases df.get? c.eventId <;> simp

/-- `applyPending` preserves the number of rows. -/
theorem applyPending_length (p : List PendingChange) : ∀ df : List OrderRecord,
    (applyPending df p).length = df.length := by
  induction p with
  | nil => intro df; rfl
  | cons c t ih =>
    intro df
    show (applyPending (applyChange df c) t).length = df.length
    rw [ih, applyChange_length]

/-- A change to one event id leaves every other row unchanged. -/
theorem applyChange_get_ne (df : List OrderRecord) (c : PendingChange) (i : Nat)
    (h : c.eventId ≠ i) : (applyChange df c).get? i = df.get? i := by
  rw [applyChange]
  cases df.get? c.eventId with
  | none => rfl
  | some r =>
    show (df.set c.eventId _).get? i = df.get? i
    rw [List.get?_eq_getElem?, List.get?_eq_getElem?, List.getElem?_set_ne h]

/-- Pending changes that avoid row `i` leave row `i` unchanged. -/
theorem applyPending_get_ne (p : List PendingChange) : ∀ (df : List OrderRecord) (i : Nat),
    (∀ c ∈ p, c.eventId ≠ i) → (applyPending df p).get? i = df.get? i := by
  induction p with
  | nil => intro df i _; rfl
  | cons c t ih =>
    intro df i hp
    show (applyPending (applyChange df c) t).get? i = df.get? i
    rw [ih _ _ (fun x hx => hp x (List.mem_cons_of_mem _ hx)),
        applyChange_get_ne _ _ _ (hp c (List.mem_cons_self _ _))]

/-- Applying a change to an existing row sets that row's scheduled date. -/
theorem applyChange_get_self (df : List OrderRecord) (c : PendingChange)
    (h : c.eventId < df.length) :
    ((applyChange df c).get? c.eventId).map OrderRecord.scheduledDate = some (some c.newDate) := by
  rw [applyChange]
  obtain ⟨r, hr⟩ : ∃ r, df.get? c.eventId = some r := ⟨_, List.get?_eq_get h⟩
  rw [hr]
  rw [List.get?_eq_getElem?, List.getElem?_set_self (by simpa using h)]
  simp [List.getElem?_eq_getElem, h]

/-! ### Claim theorems -/

/-- C2: loading a store with the single record `A1` (status `Scheduled`,
date `2024-03-01`), staging a calendar drag of `A1` (event id 0) to
`2024-03-05`, and confirming, leaves the store with `scheduledDate
2024-03-05` for `A1`, and the calendar event list built from the store is
exactly one event with `start = 2024-03-05`. -/
theorem confirm_scenario_A1 :
    storeTuples (confirmCalendar (handleEventDrop ⟨loadData [rowA1], []⟩ 0 ⟨2024, 3, 5⟩)).df
      = [("A1", some ⟨2024, 3, 5⟩, "Scheduled")] ∧
    (dfToCalendarEvents (confirmCalendar (handleEventDrop ⟨loadData [rowA1], []⟩ 0 ⟨2024, 3, 5⟩)).df).map
        CalendarEvent.start
      = ["2024-03-05"] := by
  decide

/-- C3: same load, stage the drag of `A1` to `2024-03-05`, then cancel:
the store still shows `2024-03-01` for `A1`; and in general `Cancel`
clears the pending set and never touches the store. -/
theorem cancel_scenario_A1 :
    storeTuples (cancelCalendar (handleEventDrop ⟨loadData [rowA1], []⟩ 0 ⟨2024, 3, 5⟩)).df
      = [("A1", some ⟨2024, 3, 1⟩, "Scheduled")] ∧
    (cancelCalendar (handleEventDrop ⟨loadData [rowA1], []⟩ 0 ⟨2024, 3, 5⟩)).pending = [] ∧
    ∀ s : AppState, cancelCalendar s = { df := s.df, pending := [] } := by
  refine ⟨by decide, by decide, ?_⟩
  intro s
  rfl

/-- C10 (code evaluated at the failing input): with one filtered row on
screen and the editor returning two rows (the user added one, id blank),
the `Update Schedule` write-back raises pandas' length-mismatch
`ValueError` instead of inserting the new row and generating an id. -/
theorem update_table_added_row_errors :
    updateTable (loadData [rowA1]) [0] [editedA1, editedNew]
      = Except.error "Must have equal len keys and value when setting with an iterable" := by
  rfl

/-- C1 counterexample: in the two-row store where both rows carry
work-order id `A1`, the drops of event 0 and event 1 are two staged
changes to the same work-order id, yet both stay pending (the set is
keyed by the positional event id, not by `workOrderId`) and on confirm
both are applied. -/
theorem pending_keyed_by_event_id_cex :
    pendingDup.map PendingChange.wo = ["A1", "A1"] ∧
    pendingDup.length = 2 ∧
    storeTuples (confirmCalendar ⟨dfDupWo, pendingDup⟩).df
      = [("A1", some ⟨2024, 3, 5⟩, "Scheduled"), ("A1", some ⟨2024, 3, 6⟩, "Scheduled")] := by
  decide

/-- C6 counterexample: a bulk load of two rows that share the work-order
id `A1` produces a store with a duplicated `workOrderId` — the loader
never deduplicates or rejects. -/
theorem load_duplicate_wo_cex :
    woList (loadData [rowA1, rowA1b]) = ["A1", "A1"] ∧
    ¬ uniqueWo (loadData [rowA1, rowA1b]) := by
  decide

/-- C7 counterexample: for the loaded one-row store, the save-to-file
path contains no cell equal to the computed color `#ffc107`, but the
`Download Updated CSV` path (a plain `df.to_csv`) emits it — the download
path does not exclude the derived color column. -/
theorem download_includes_color_cex :
    (saveCsv (loadData [rowA1])).all (fun row => !(row.contains "#ffc107")) = true ∧
    ((downloadCsv (loadData [rowA1])).getD 1 []).contains "#ffc107" = true ∧
    (downloadCsv (loadData [rowA1])).getD 0 [] = downloadHeader ∧
    downloadHeader.contains "Color" = true := by
  decide

/-- C9 counterexample: if the loaded store already holds a record with id
`PLACEHOLDER-2`, adding a placeholder generates
`PLACEHOLDER-<len+1> = PLACEHOLDER-2` again, so the freshly generated id
is not unique within the store. -/
theorem placeholder_id_collision_cex :
    woList (addPlaceholder (loadData [rowP2]) "Tentative - X" ⟨2024, 4, 10⟩)
      = ["PLACEHOLDER-2", "PLACEHOLDER-2"] ∧
    ¬ uniqueWo (addPlaceholder (loadData [rowP2]) "Tentative - X" ⟨2024, 4, 10⟩) := by
  decide

/-- Reading the just-appended element. -/
theorem get_append_length {α : Type} (l : List α) (c : α) :
    (l ++ [c]).get? l.length = some c := by
  induction l with
  | nil => rfl
  | cons a t ih => simp [ih]

/-- Adding a placeholder keeps work-order ids unique when they were
unique and the generated id is not already taken. -/
theorem uniqueWo_addPlaceholder (df : List OrderRecord) (nm : String) (dt : Date)
    (h1 : uniqueWo df) (h2 : ("PLACEHOLDER-" ++ toString (df.length + 1)) ∉ woList df) :
    uniqueWo (addPlaceholder df nm dt) := by
  rw [uniqueWo, woList, addPlaceholder, List.map_append, List.nodup_append]
  refine ⟨h1, by simp, ?_⟩
  intro a ha hb
  simp [placeholderRecord] at hb
  rw [hb] at ha
  exact h2 ha

/-- C1 (amended): the pending-change set is keyed by the positional event
id: staging two drops for the same event id leaves only the later one
pending (appended after the unrelated changes), and confirming applies
exactly the later date to that row. -/
theorem stage_last_write_wins (df : List OrderRecord) (p : List PendingChange) (e : Nat)
    (d1 d2 : Date) (hp : ∀ c ∈ p, c.eventId ≠ e) (he : e < df.length) :
    stageDrop df (stageDrop df p e d1) e d2 = p ++ [⟨e, d2, woAt df e⟩] ∧
    ((confirmCalendar ⟨df, stageDrop df (stageDrop df p e d1) e d2⟩).df.get? e).map
        OrderRecord.scheduledDate = some (some d2) := by
  have h1 : stageDrop df p e d1 = p ++ [⟨e, d1, woAt df e⟩] := stageDrop_append df p e d1 hp
  have h2 : stageDrop df (stageDrop df p e d1) e d2 = p ++ [⟨e, d2, woAt df e⟩] := by
    rw [h1]
    exact stageDrop_replace df p e _ d2 hp rfl
  refine ⟨h2, ?_⟩
  show ((applyPending df (stageDrop df (stageDrop df p e d1) e d2)).get? e).map _ = _
  rw [h2, applyPending, List.foldl_append]
  show ((applyChange (applyPending df p) ⟨e, d2, woAt df e⟩).get? e).map _ = _
  have hlen : e < (applyPending df p).length := by
    rw [applyPending_length]
    exact he
  exact applyChange_get_self (applyPending df p) ⟨e, d2, woAt df e⟩ hlen

/-- Witness for `stage_last_write_wins` at the one-row `A1` store. -/
theorem stage_last_write_wins_w :
    stageDrop (loadData [rowA1]) (stageDrop (loadData [rowA1]) [] 0 ⟨2024, 3, 4⟩) 0 ⟨2024, 3, 5⟩
      = [] ++ [⟨0, ⟨2024, 3, 5⟩, woAt (loadData [rowA1]) 0⟩] ∧
    ((confirmCalendar ⟨loadData [rowA1],
        stageDrop (loadData [rowA1]) (stageDrop (loadData [rowA1]) [] 0 ⟨2024, 3, 4⟩) 0
          ⟨2024, 3, 5⟩⟩).df.get? 0).map OrderRecord.scheduledDate = some (some ⟨2024, 3, 5⟩) :=
  stage_last_write_wins (loadData [rowA1]) [] 0 ⟨2024, 3, 4⟩ ⟨2024, 3, 5⟩ (by decide) (by decide)

/-- C4: the calendar event list contains exactly one event per record
with a scheduled date, and every event in it arises from a record whose
scheduled date is present — a record without `scheduledDate` is excluded. -/
theorem unscheduled_records_excluded (df : List OrderRecord) :
    (dfToCalendarEvents df).length = (df.filter (fun r => r.scheduledDate.isSome)).length ∧
    ∀ e ∈ dfToCalendarEvents df, ∃ (i : Nat) (r : OrderRecord),
      df.get? i = some r ∧ r.scheduledDate.isSome = true ∧ e.id = toString i := by
  constructor
  · exact eventsFrom_length df 0
  · intro e he
    obtain ⟨j, r, hg, hsome, hid⟩ := eventsFrom_mem df 0 e he
    exact ⟨j, r, hg, hsome, by simpa using hid⟩

/-- Witness for `unscheduled_records_excluded` at the one-row store. -/
theorem unscheduled_records_excluded_w :
    ∃ (i : Nat) (r : OrderRecord), (loadData [rowA1]).get? i = some r ∧
      r.scheduledDate.isSome = true ∧
      (mkEvent 0 (loadRow rowA1) ⟨2024, 3, 1⟩).id = toString i :=
  (unscheduled_records_excluded (loadData [rowA1])).2
    (mkEvent 0 (loadRow rowA1) ⟨2024, 3, 1⟩) (by decide)

/-- C5: the status-to-color derivation is total — every status string
maps to one of the five palette colors, and a status outside the mapping
falls back to the default `Unscheduled` grey `#6c757d`. -/
theorem statusColor_total (s : String) :
    statusColor s ∈ STATUS_COLORS.map Prod.snd ∧
    (List.lookup s STATUS_COLORS = none → statusColor s = "#6c757d") := by
  constructor
  · cases hl : List.lookup s STATUS_COLORS with
    | none => simp only [statusColor, hl]; decide
    | some c =>
      simp only [statusColor, hl, Option.getD_some]
      exact lookup_mem_snd hl
  · intro h
    simp only [statusColor, h]
    decide

/-- Witness for `statusColor_total` at an unmapped status string. -/
theorem statusColor_total_w : statusColor "Bogus" = "#6c757d" :=
  (statusColor_total "Bogus").2 (by decide)

/-- C6 (amended): the store never enforces id uniqueness itself — a bulk
load keeps exactly the input ids (so the loaded store is duplicate-free
precisely when the input rows are), and an add-placeholder keeps a unique
store unique provided the generated `PLACEHOLDER-<len+1>` id is not
already taken. -/
theorem wo_uniqueness_conditions (rows : List Row) (df : List OrderRecord) (nm : String)
    (dt : Date) (h1 : uniqueWo df)
    (h2 : ("PLACEHOLDER-" ++ toString (df.length + 1)) ∉ woList df) :
    woList (loadData rows) = rows.map Row.wo ∧
    (uniqueWo (loadData rows) ↔ (rows.map Row.wo).Nodup) ∧
    uniqueWo (addPlaceholder df nm dt) := by
  have hload : woList (loadData rows) = rows.map Row.wo := by
    rw [woList, loadData, List.map_map]
    rfl
  exact ⟨hload, by rw [uniqueWo, hload], uniqueWo_addPlaceholder df nm dt h1 h2⟩

/-- Witness for `wo_uniqueness_conditions` at the one-row store. -/
theorem wo_uniqueness_conditions_w :
    woList (loadData [rowA1]) = [rowA1].map Row.wo ∧
    (uniqueWo (loadData [rowA1]) ↔ ([rowA1].map Row.wo).Nodup) ∧
    uniqueWo (addPlaceholder (loadData [rowA1]) "Tentative - X" ⟨2024, 4, 10⟩) :=
  wo_uniqueness_conditions [rowA1] (loadData [rowA1]) "Tentative - X" ⟨2024, 4, 10⟩
    (by decide) (by decide)

/-- C7 (amended): the save-to-file path excludes the computed color (its
output is invariant under recoloring every record), dates are emitted in
`YYYY-MM-DD` shape (10 characters, dashes at positions 4 and 7, parsing
back to the same date), but the download path always carries the record's
color in its row. -/
theorem export_drops_color_save_path (df : List OrderRecord) (c : String) (dt : Date)
    (h : ValidDate dt) :
    saveCsv (df.map (fun r => { r with color := c })) = saveCsv df ∧
    (∀ r : OrderRecord, r.color ∈ downloadRowCells r) ∧
    (formatDate dt).length = 10 ∧
    (formatDate dt).data.get? 4 = some '-' ∧
    (formatDate dt).data.get? 7 = some '-' ∧
    parseDate (formatDate dt) = some dt := by
  refine ⟨?_, ?_, rfl, rfl, rfl, parseDate_formatDate dt h⟩
  · rw [saveCsv, saveCsv, List.map_map]
    exact congrArg (List.cons saveHeader) (List.map_congr_left (fun r _ => rfl))
  · intro r
    simp [downloadRowCells]

/-- Witness for `export_drops_color_save_path` at a concrete store, color
and date. -/
theorem export_drops_color_save_path_w :
    parseDate (formatDate ⟨2024, 3, 1⟩) = some ⟨2024, 3, 1⟩ :=
  (export_drops_color_save_path (loadData [rowA1]) "none" ⟨2024, 3, 1⟩ (by decide)).2.2.2.2.2

/-- C8: exporting the store through the save-path serializer and loading
the rows back reproduces the same `(workOrderId, scheduledDate, status)`
tuples, at date-only precision (for stores whose dates are real calendar
days, as all program-produced dates are). -/
theorem export_load_roundtrip (df : List OrderRecord)
    (h : ∀ r ∈ df, ValidOptDate r.scheduledDate) :
    storeTuples (loadData (exportRows df)) = storeTuples df := by
  rw [storeTuples, storeTuples, loadData, exportRows, List.map_map, List.map_map]
  apply List.map_congr_left
  intro r hr
  show (r.wo, parseDate (dateCell r.scheduledDate), r.status) = (r.wo, r.scheduledDate, r.status)
  have hv := h r hr
  cases hs : r.scheduledDate with
  | none => rfl
  | some dt =>
    rw [hs] at hv
    have : parseDate (formatDate dt) = some dt := parseDate_formatDate dt hv
    simp [dateCell, this]

/-- Witness for `export_load_roundtrip` at the loaded one-row store. -/
theorem export_load_roundtrip_w :
    storeTuples (loadData (exportRows (loadData [rowA1]))) = storeTuples (loadData [rowA1]) :=
  export_load_roundtrip (loadData [rowA1]) (by decide)

/-- C9 (amended): adding a placeholder appends exactly one record with
`Type = Placeholder`, `Status = Placeholder` and the generated
`PLACEHOLDER-<len+1>` id — which is unique in the store provided it was
not already taken — and the new record shows up as one appended calendar
event with the chosen date and the `Placeholder` orange `#fd7e14`. -/
theorem addPlaceholder_spec (df : List OrderRecord) (nm : String) (dt : Date)
    (h1 : uniqueWo df) (h2 : ("PLACEHOLDER-" ++ toString (df.length + 1)) ∉ woList df) :
    (addPlaceholder df nm dt).length = df.length + 1 ∧
    (addPlaceholder df nm dt).take df.length = df ∧
    (addPlaceholder df nm dt).get? df.length = some (placeholderRecord df nm dt) ∧
    (placeholderRecord df nm dt).rtype = "Placeholder" ∧
    (placeholderRecord df nm dt).status = "Placeholder" ∧
    (placeholderRecord df nm dt).wo = "PLACEHOLDER-" ++ toString (df.length + 1) ∧
    uniqueWo (addPlaceholder df nm dt) ∧
    dfToCalendarEvents (addPlaceholder df nm dt)
      = dfToCalendarEvents df ++ [mkEvent df.length (placeholderRecord df nm dt) dt] ∧
    (mkEvent df.length (placeholderRecord df nm dt) dt).backgroundColor = "#fd7e14" ∧
    (mkEvent df.length (placeholderRecord df nm dt) dt).start = formatDate dt := by
  refine ⟨by simp [addPlaceholder], ?_, ?_, rfl, rfl, rfl,
    uniqueWo_addPlaceholder df nm dt h1 h2, ?_, rfl, rfl⟩
  · rw [addPlaceholder]
    exact List.take_left df [placeholderRecord df nm dt]
  · rw [addPlaceholder]
    exact get_append_length df (placeholderRecord df nm dt)
  · rw [dfToCalendarEvents, dfToCalendarEvents, addPlaceholder]
    have := eventsFrom_append_some (placeholderRecord df nm dt) dt rfl df 0
    simpa using this

/-- Witness for `addPlaceholder_spec` at the loaded one-row store. -/
theorem addPlaceholder_spec_w :
    uniqueWo (addPlaceholder (loadData [rowA1]) "Tentative - X" ⟨2024, 4, 10⟩) :=
  (addPlaceholder_spec (loadData [rowA1]) "Tentative - X" ⟨2024, 4, 10⟩
    (by decide) (by decide)).2.2.2.2.2.2.1

end Scheduler
